import Mathlib

/-!
Verification of the MKV remux pipeline (`mkv_processor.py`).

The development shallowly embeds the pipeline's pure logic and its
filesystem effects:

* Python string / path library calls (`os.path.basename`, `dirname`,
  `splitext`, `join`, `relpath`, `str.strip`, `str.lower`, `in`,
  `startswith`, `endswith`) are modelled as executable functions over
  `List Char` / `String`.
* The filesystem is an explicit state: an association list of file
  paths to contents plus a list of directories.
* External processes are parameters: the inspection result is passed as
  a track list, the remux tool's behaviour as a `RemuxBehavior` value
  (exit code, captured stderr, and the output it left on disk, if any).
* Machine integers do not occur (Python integers are unbounded); track
  ids are `Nat`, exit codes are `Int`.

Wall-clock fields (`processing_time`, poll intervals) are not modelled.
-/

/-! ### Character and list helpers (Python string primitives) -/

/-- Does `hay` start with `needle`? (character-list level). -/
def listStarts : List Char → List Char → Bool
  | [], _ => true
  | _ :: _, [] => false
  | n :: ns, h :: hs => n == h && listStarts ns hs

/-- Does `hay` contain `needle` as a contiguous substring? Models Python `in`. -/
def listHasSub : List Char → List Char → Bool
  | n, [] => n.isEmpty
  | n, c :: rest => listStarts n (c :: rest) || listHasSub n rest

/-- Membership of a string in a list of strings; models Python `in` on a set/list. -/
def listHas (l : List String) (x : String) : Bool :=
  l.any (fun y => y == x)

/-- ASCII lower-casing of one character; models `str.lower` on the ASCII
inputs exercised here (`str.lower` additionally folds non-ASCII letters,
which none of the constants or inputs of this development contain). -/
def charLower (c : Char) : Char :=
  if 65 ≤ c.toNat ∧ c.toNat ≤ 90 then Char.ofNat (c.toNat + 32) else c

/-- Python regex `\s` over the ASCII range (`str.strip` default set). -/
def pyIsSpaceChar (c : Char) : Bool :=
  c == ' ' || c == '\t' || c == '\n' || c == '\r' || c == '\x0b' || c == '\x0c'

/-- Python regex `\d` (ASCII digits). -/
def isDigitChar (c : Char) : Bool :=
  decide ('0' ≤ c ∧ c ≤ '9')

/-- Python regex `\w` restricted to ASCII (`[A-Za-z0-9_]`); the language
codes and names the code matches are ASCII. -/
def isWordChar (c : Char) : Bool :=
  decide (('a' ≤ c ∧ c ≤ 'z') ∨ ('A' ≤ c ∧ c ≤ 'Z') ∨ ('0' ≤ c ∧ c ≤ '9')) || c == '_'

/-- Numeric value of a digit run, as `int()` of the captured group. -/
def natFromDigits (ds : List Char) : Nat :=
  ds.foldl (fun n c => n * 10 + (c.toNat - 48)) 0

/-- `text.split(sep)` for a one-character separator: keeps empty pieces. -/
def splitOnChar (sep : Char) : List Char → List (List Char)
  | [] => [[]]
  | c :: rest =>
    let r := splitOnChar sep rest
    if c == sep then [] :: r
    else
      match r with
      | [] => [[c]]
      | p :: ps => (c :: p) :: ps

/-- `str.strip()` with the default whitespace set. -/
def pyStripChars (cs : List Char) : List Char :=
  ((cs.dropWhile pyIsSpaceChar).reverse.dropWhile pyIsSpaceChar).reverse

/-! ### Python path functions (`posixpath`) -/

/-- `s.startswith(t)`: plain string-prefix test. -/
def strStarts (s t : String) : Bool := listStarts t.data s.data

/-- `s.endswith(t)`. -/
def pyEndsWith (s t : String) : Bool := listStarts t.data.reverse s.data.reverse

/-- `needle in hay` on strings. -/
def pyHasSub (needle hay : String) : Bool := listHasSub needle.data hay.data

/-- `str.lower` (ASCII; see `charLower`). -/
def pyLower (s : String) : String := String.mk (s.data.map charLower)

/-- Everything strictly after the last `/` of `cs` (empty if `cs` ends in `/`). -/
def tailAfterLastSlash (cs : List Char) : List Char :=
  (cs.reverse.takeWhile (fun c => c != '/')).reverse

/-- Everything up to and including the last `/` of `cs` (empty if no `/`). -/
def headUptoLastSlash (cs : List Char) : List Char :=
  (cs.reverse.dropWhile (fun c => c != '/')).reverse

/-- Strip trailing `/` characters. -/
def dropTrailingSlashes (cs : List Char) : List Char :=
  (cs.reverse.dropWhile (fun c => c == '/')).reverse

/-- `os.path.basename`. -/
def pyBasename (p : String) : String := String.mk (tailAfterLastSlash p.data)

/-- `os.path.dirname` (POSIX): the head up to the last slash, with trailing
slashes stripped unless the head consists only of slashes. -/
def pyDirname (p : String) : String :=
  let head := headUptoLastSlash p.data
  if head.isEmpty then ""
  else if head.all (fun c => c == '/') then String.mk head
  else String.mk (dropTrailingSlashes head)

/-- `os.path.splitext` (POSIX): split at the last dot of the basename,
unless every character of the basename before that dot is itself a dot. -/
def pySplitext (p : String) : String × String :=
  let base := tailAfterLastSlash p.data
  let head := headUptoLastSlash p.data
  let revAfter := base.reverse.takeWhile (fun c => c != '.')
  match base.reverse.dropWhile (fun c => c != '.') with
  | [] => (p, "")
  | _ :: revPre =>
    if revPre.reverse.any (fun c => c != '.') then
      (String.mk (head ++ revPre.reverse), String.mk ('.' :: revAfter.reverse))
    else (p, "")

/-- `os.path.join` (POSIX, two arguments). -/
def pyJoin (a b : String) : String :=
  if strStarts b "/" then b
  else if a == "" || pyEndsWith a "/" then String.mk (a.data ++ b.data)
  else String.mk (a.data ++ '/' :: b.data)

/-- `os.path.relpath p start`, modelled for the case the code exercises:
`p` lying strictly under `start` (then it is the suffix after `start ++ "/"`)
or equal to it.  Other argument shapes (which Python resolves with `..`
segments) are returned unchanged; all theorems below constrain their
arguments to the modelled cases. -/
def pyRelpath (p start : String) : String :=
  if listStarts (start.data ++ ['/']) p.data then
    String.mk (p.data.drop (start.data.length + 1))
  else if p == start then "." else p

/-! ### Data model (`mkv_processor.py` dataclasses and config) -/

/-- `AudioTrack` dataclass: one audio stream found inside a container. -/
structure AudioTrack where
  track_id : Nat
  codec : String
  language_code : Option String
  track_name : Option String
deriving DecidableEq, Repr

/-- `ProcessResult` dataclass (the wall-clock `processing_time` field is
not modelled). -/
structure ProcessResult where
  success : Bool
  input_path : String
  output_path : Option String
  tamil_tracks_found : Nat
  total_audio_tracks : Nat
  error : Option String
deriving DecidableEq, Repr

/-- The `MKVProcessor` constructor arguments that influence the logic. -/
structure MKVConfig where
  completed_dir : String
  processing_dir : String
  processed_dir : String
  mkvmerge_path : String
  keep_first_audio_as_fallback : Bool
deriving DecidableEq, Repr

/-- Abstract filesystem: files (path, contents) plus existing directories.
`os.makedirs` is recorded by adding the created leaf path to `dirs`. -/
structure FSState where
  files : List (String × String)
  dirs : List String
deriving DecidableEq, Repr

/-- Behaviour of one invocation of the external remux tool: it either
exits with a code (having captured `stderr` and left `output` on disk at
the requested output path, `none` when it wrote nothing), or exceeds the
timeout (`subprocess.TimeoutExpired`), possibly leaving partial output. -/
inductive RemuxBehavior where
  | exits (code : Int) (stderr : String) (output : Option String)
  | timesOut (output : Option String)
deriving DecidableEq, Repr

/-- Result of one `process_file` call: final filesystem, the returned
`ProcessResult`, and the argv of the remux invocation if one was launched. -/
structure ProcOutcome where
  fs : FSState
  result : ProcessResult
  invoked_remux : Option (List String)
deriving DecidableEq, Repr

/-! ### Filesystem primitives -/

/-- First binding of a path in the file list. -/
def lookupFile : List (String × String) → String → Option String
  | [], _ => none
  | (p, c) :: rest, q => if p == q then some c else lookupFile rest q

/-- Is there a file at `p`? -/
def fsHasFile (files : List (String × String)) (p : String) : Bool :=
  (lookupFile files p).isSome

/-- `os.path.exists`: file or directory. -/
def fsExistsB (fs : FSState) (p : String) : Bool :=
  fsHasFile fs.files p || listHas fs.dirs p

/-- File-list effect of `shutil.move`/`os.rename` of a file (same
filesystem): source binding removed, destination overwritten. -/
def moveFiles (files : List (String × String)) (src dst : String) : List (String × String) :=
  match lookupFile files src with
  | none => files
  | some c => (files.filter (fun f => f.1 != src && f.1 != dst)) ++ [(dst, c)]

/-- `shutil.move` on the state. -/
def fsMove (fs : FSState) (src dst : String) : FSState :=
  ⟨moveFiles fs.files src dst, fs.dirs⟩

/-- Writing (or overwriting) a file, as the external tool does. -/
def fsWrite (fs : FSState) (p c : String) : FSState :=
  ⟨fs.files.filter (fun f => f.1 != p) ++ [(p, c)], fs.dirs⟩

/-- `os.remove` of an existing file. -/
def fsRemoveFile (fs : FSState) (p : String) : FSState :=
  ⟨fs.files.filter (fun f => f.1 != p), fs.dirs⟩

/-- `os.makedirs(p, exist_ok=True)`; the parent chain is abstracted, only
the created leaf is recorded. -/
def fsMkdirs (fs : FSState) (p : String) : FSState :=
  ⟨fs.files, if listHas fs.dirs p then fs.dirs else fs.dirs ++ [p]⟩

/-- `os.path.getsize` (0 when the path is not a file). -/
def fsFileSize (fs : FSState) (p : String) : Nat :=
  match lookupFile fs.files p with
  | some c => c.length
  | none => 0

/-- Disk effect of the remux tool's run: its output, if any, appears at
the requested output path. -/
def applyOut (fs : FSState) (p : String) (out : Option String) : FSState :=
  match out with
  | none => fs
  | some c => fsWrite fs p c

/-! ### Track catalog parser (`MKVProcessor.identify_audio_tracks`)

The subprocess invocation of the inspection tool is outside the model;
what is embedded is the pure text-to-catalog part: the line scan the
method performs on the tool's stdout. -/

/-- `re.match(r'Track ID (\d+): audio \(([^)]+)\)', line)`: anchored at
the start of the line; yields the numeric id and the codec text. -/
def matchTrackHeader (cs : List Char) : Option (Nat × List Char) :=
  if listStarts "Track ID ".data cs then
    let r1 := cs.drop 9
    let ds := r1.takeWhile isDigitChar
    if ds.isEmpty then none
    else
      let r2 := r1.drop ds.length
      if listStarts ": audio (".data r2 then
        let r3 := r2.drop 9
        let codec := r3.takeWhile (fun c => c != ')')
        if codec.isEmpty then none
        else if listStarts [')'] (r3.drop codec.length) then some (natFromDigits ds, codec)
        else none
      else none
  else none

/-- One attempted match of `(?:language|Language)\s*:\s*(\w+)` at the
current position (the two literal alternatives cannot both apply at one
position, and `\s*` cannot cross the `:`). -/
def tryLangAt (cs : List Char) : Option (List Char) :=
  if listStarts "language".data cs || listStarts "Language".data cs then
    match (cs.drop 8).dropWhile pyIsSpaceChar with
    | ':' :: r2 =>
      let w := (r2.dropWhile pyIsSpaceChar).takeWhile isWordChar
      if w.isEmpty then none else some w
    | _ => none
  else none

/-- `re.search` for the language pattern: leftmost position whose match
attempt succeeds. -/
def findLang : List Char → Option (List Char)
  | [] => none
  | c :: rest =>
    match tryLangAt (c :: rest) with
    | some w => some w
    | none => findLang rest

/-- One attempted match of `(?:Name|name)\s*:\s*(.+)$` at the current
position.  The raw remainder after the colon is returned when non-empty;
the caller immediately applies `.strip()`, under which this equals the
regex capture (backtracking of `\s*` only shifts leading whitespace
between `\s*` and the capture). -/
def tryNameAt (cs : List Char) : Option (List Char) :=
  if listStarts "Name".data cs || listStarts "name".data cs then
    match (cs.drop 4).dropWhile pyIsSpaceChar with
    | ':' :: r2 => if r2.isEmpty then none else some r2
    | _ => none
  else none

/-- `re.search` for the name pattern. -/
def findName : List Char → Option (List Char)
  | [] => none
  | c :: rest =>
    match tryNameAt (c :: rest) with
    | some w => some w
    | none => findName rest

/-- `next((t for t in audio_tracks if t.track_id == current_track_id), None) is not None`. -/
def hasTrackId (ts : List AudioTrack) (tid : Nat) : Bool :=
  ts.any (fun t => t.track_id == tid)

/-- Mutation of the first track with the given id: set its language. -/
def setLang (ts : List AudioTrack) (tid : Nat) (lang : String) : List AudioTrack :=
  match ts with
  | [] => []
  | t :: rest =>
    if t.track_id == tid then ⟨t.track_id, t.codec, some lang, t.track_name⟩ :: rest
    else t :: setLang rest tid lang

/-- Mutation of the first track with the given id: set its name. -/
def setName (ts : List AudioTrack) (tid : Nat) (nm : String) : List AudioTrack :=
  match ts with
  | [] => []
  | t :: rest =>
    if t.track_id == tid then ⟨t.track_id, t.codec, t.language_code, some nm⟩ :: rest
    else t :: setName rest tid nm

/-- `current_codec or 'unknown'` (Python truthiness: empty string falsy). -/
def codecOr (c : Option String) : String :=
  match c with
  | some s => if s == "" then "unknown" else s
  | none => "unknown"

/-- Scanner state: accumulated tracks plus the current-track cursor. -/
structure ParseState where
  tracks : List AudioTrack
  cur_id : Option Nat
  cur_codec : Option String
deriving DecidableEq, Repr

/-- One iteration of the loop body of `identify_audio_tracks` (strip the
line; on an audio header flush the previous cursor unconditionally and
restart it; otherwise attach a found language and/or name to the first
accumulated track with the cursor's id, creating it if absent). -/
def parseLine (st : ParseState) (raw : List Char) : ParseState :=
  let line := pyStripChars raw
  match matchTrackHeader line with
  | some (tid, codec) =>
    let tracks' :=
      match st.cur_id with
      | some cid => st.tracks ++ [⟨cid, codecOr st.cur_codec, none, none⟩]
      | none => st.tracks
    ⟨tracks', some tid, some (String.mk codec)⟩
  | none =>
    let st1 : ParseState :=
      match findLang line, st.cur_id with
      | some w, some cid =>
        let lang := pyLower (String.mk w)
        if hasTrackId st.tracks cid then ⟨setLang st.tracks cid lang, st.cur_id, st.cur_codec⟩
        else ⟨st.tracks ++ [⟨cid, codecOr st.cur_codec, some lang, none⟩], st.cur_id, st.cur_codec⟩
      | _, _ => st
    match findName line, st1.cur_id with
    | some w, some cid =>
      let nm := String.mk (pyStripChars w)
      if hasTrackId st1.tracks cid then ⟨setName st1.tracks cid nm, st1.cur_id, st1.cur_codec⟩
      else ⟨st1.tracks ++ [⟨cid, codecOr st1.cur_codec, none, some nm⟩], st1.cur_id, st1.cur_codec⟩
    | _, _ => st1

/-- The pure text-to-catalog function of `identify_audio_tracks`:
`result.stdout.split('\n')`, the line loop, then the final flush (which,
unlike the in-loop flush, checks whether the cursor's track was already
accumulated). -/
def identify_audio_tracks (stdout : String) : List AudioTrack :=
  let lines := splitOnChar '\n' stdout.data
  let st := lines.foldl parseLine ⟨[], none, none⟩
  match st.cur_id with
  | some cid =>
    if hasTrackId st.tracks cid then st.tracks
    else st.tracks ++ [⟨cid, codecOr st.cur_codec, none, none⟩]
  | none => st.tracks

/-! ### Track selection (`MKVProcessor.find_tamil_tracks`) -/

/-- Per-track test of the selection loop: language code in
`TAMIL_LANGUAGE_CODES = {'tam', 'ta'}`, else (for a truthy name) one of
`TAMIL_NAME_PATTERNS = {'tamil', 'tam', 'தமிழ்'}` occurring in the
lower-cased name.  Each branch appends the id at most once, so the loop
body is this disjunction. -/
def trackMatchesTamil (t : AudioTrack) : Bool :=
  (match t.language_code with
   | some l => l == "tam" || l == "ta"
   | none => false)
  ||
  (match t.track_name with
   | some n =>
     n != "" &&
       (pyHasSub "tamil" (pyLower n) || pyHasSub "tam" (pyLower n) ||
         pyHasSub "தமிழ்" (pyLower n))
   | none => false)

/-- `find_tamil_tracks`: ids of matching tracks in catalog order; if none
match, fallback is enabled and the catalog is non-empty, the first
catalog entry's id alone. -/
def find_tamil_tracks (keep_first_audio_as_fallback : Bool) (audio_tracks : List AudioTrack) :
    List Nat :=
  let tamil := (audio_tracks.filter trackMatchesTamil).map (fun t => t.track_id)
  match tamil, keep_first_audio_as_fallback, audio_tracks with
  | [], true, t :: _ => [t.track_id]
  | _, _, _ => tamil

/-! ### Remux command (`MKVProcessor.build_mkvmerge_command`) -/

/-- `build_mkvmerge_command`: output flag, the audio-track selection flag
(omitted when the id list is empty), then the input path. -/
def build_mkvmerge_command (mkvmerge_path input_path output_path : String)
    (tamil_track_ids : List Nat) : List String :=
  [mkvmerge_path, "-o", output_path]
    ++ (if tamil_track_ids.isEmpty then []
        else ["--audio-tracks", String.intercalate "," (tamil_track_ids.map toString)])
    ++ [input_path]

/-! ### Staging moves (`_move_to_processing`, `_move_to_processed`,
`_move_back_to_completed`) -/

/-- `_move_to_processing` (present in the source, but never called by
`process_file`). -/
def move_to_processing (cfg : MKVConfig) (fs : FSState) (source_path : String) :
    FSState × String :=
  let dest := pyJoin cfg.processing_dir (pyBasename source_path)
  (fsMove fs source_path dest, dest)

/-- `_move_to_processed`: destination under `processed/` at the relative
path from whichever staging root the source lies in (by string-prefix
test), creating the destination's parent directory if missing, and moving
only when the source exists. -/
def move_to_processed (cfg : MKVConfig) (fs : FSState) (source_path : String) :
    FSState × String :=
  let rel_path :=
    if strStarts source_path cfg.processing_dir then pyRelpath source_path cfg.processing_dir
    else if strStarts source_path cfg.completed_dir then pyRelpath source_path cfg.completed_dir
    else pyBasename source_path
  let dest := pyJoin cfg.processed_dir rel_path
  let dest_dir := pyDirname dest
  let fs1 := if dest_dir != "" && !(fsExistsB fs dest_dir) then fsMkdirs fs dest_dir else fs
  let fs2 := if fsExistsB fs1 source_path then fsMove fs1 source_path dest else fs1
  (fs2, dest)

/-- `_move_back_to_completed`: insert `.{status}` before the extension of
the current basename and place the file at that name directly under
`completed/`.  The source's two branches (rename within `completed/`
versus move from elsewhere) perform the same single-filesystem rename to
the same destination, so both reduce to one guarded move. -/
def move_back_to_completed (cfg : MKVConfig) (fs : FSState) (source_path status : String) :
    FSState × String :=
  let ne := pySplitext (pyBasename source_path)
  let new_filename := ne.1 ++ "." ++ status ++ ne.2
  let dest := pyJoin cfg.completed_dir new_filename
  let fs' :=
    if pyDirname source_path == cfg.completed_dir || pyDirname source_path == "" then
      (if fsExistsB fs source_path then fsMove fs source_path dest else fs)
    else
      (if fsExistsB fs source_path then fsMove fs source_path dest else fs)
  (fs', dest)

/-! ### The per-file pipeline (`MKVProcessor.process_file`) -/

/-- `process_file`.  The inspection result is the `tracks` parameter (an
inspection failure is the empty list, exactly as the method treats it);
`remux` describes the external remux invocation's behaviour.  The
returned outcome carries the final filesystem, the `ProcessResult`, and
the remux argv if `subprocess.run` was reached. -/
def process_file (cfg : MKVConfig) (tracks : List AudioTrack) (remux : RemuxBehavior)
    (fs : FSState) (input_path : String) (dry_run : Bool) : ProcOutcome :=
  if tracks.isEmpty then
    -- no audio tracks: pass through to processed/ (unless dry run)
    let rel_path := pyRelpath input_path cfg.completed_dir
    let output_path := pyJoin cfg.processed_dir rel_path
    let fs' := if dry_run then fs else (move_to_processed cfg fs input_path).1
    ⟨fs', ⟨true, input_path, some output_path, 0, 0, some "No audio tracks found"⟩, none⟩
  else
    let tamil_track_ids := find_tamil_tracks cfg.keep_first_audio_as_fallback tracks
    if tamil_track_ids.isEmpty then
      -- no Tamil tracks selected: same pass-through
      let rel_path := pyRelpath input_path cfg.completed_dir
      let output_path := pyJoin cfg.processed_dir rel_path
      let fs' := if dry_run then fs else (move_to_processed cfg fs input_path).1
      ⟨fs', ⟨true, input_path, some output_path, 0, tracks.length, some "No Tamil audio found"⟩,
        none⟩
    else
      let rel_path := pyRelpath input_path cfg.completed_dir
      let processing_path := pyJoin cfg.processing_dir rel_path
      let pdir := pyDirname processing_path
      -- parent directory for the output is created before the dry-run test
      let fs1 := if pdir != "" && !(fsExistsB fs pdir) then fsMkdirs fs pdir else fs
      let cmd := build_mkvmerge_command cfg.mkvmerge_path input_path processing_path
        tamil_track_ids
      if dry_run then
        ⟨fs1, ⟨true, input_path, some processing_path, tamil_track_ids.length, tracks.length,
          none⟩, none⟩
      else
        match remux with
        | RemuxBehavior.timesOut out =>
          -- subprocess.TimeoutExpired propagates to the handler at the end
          -- of process_file, which only reports (no move-back)
          let fs2 := applyOut fs1 processing_path out
          ⟨fs2, ⟨false, input_path, none, 0, 0, some "mkvmerge processing timeout"⟩, some cmd⟩
        | RemuxBehavior.exits code stderr out =>
          let fs2 := applyOut fs1 processing_path out
          if code != 0 then
            let error_msg := if stderr == "" then "Unknown mkvmerge error" else stderr
            let fs3 := (move_back_to_completed cfg fs2 input_path "failed").1
            ⟨fs3, ⟨false, input_path, none, tamil_track_ids.length, tracks.length,
              some error_msg⟩, some cmd⟩
          else if !(fsExistsB fs2 processing_path) || fsFileSize fs2 processing_path == 0 then
            let fs3 := (move_back_to_completed cfg fs2 input_path "failed").1
            ⟨fs3, ⟨false, input_path, none, tamil_track_ids.length, tracks.length,
              some "Output file not created or empty"⟩, some cmd⟩
          else
            let mtp := move_to_processed cfg fs2 processing_path
            if fsHasFile mtp.1.files input_path then
              ⟨fsRemoveFile mtp.1 input_path,
                ⟨true, input_path, some mtp.2, tamil_track_ids.length, tracks.length, none⟩,
                some cmd⟩
            else
              -- os.remove raised FileNotFoundError; the generic handler reports
              ⟨mtp.1, ⟨false, input_path, none, 0, 0, some "exception"⟩, some cmd⟩

/-! ### Folder watcher (`FolderWatcher`) -/

/-- Watcher state: the watched folder and the seen-filename set (a Python
`set`, modelled as an insertion-ordered duplicate-free list; only
membership and wholesale replacement are used). -/
structure FolderWatcher where
  folder_path : String
  seen_files : List String
deriving DecidableEq, Repr

/-- Construction plus `_scan_existing_files`: the baseline is the current
listing filtered to names ending in `.mkv` (when the folder exists). -/
def FolderWatcher.init (folder_path : String) (dir_exists : Bool) (listing : List String) :
    FolderWatcher :=
  ⟨folder_path, if dir_exists then listing.filter (fun e => pyEndsWith e ".mkv") else []⟩

/-- The poll filter of `check_once` (note: broader than the baseline
filter of `_scan_existing_files`). -/
def entryMatches (entry : String) : Bool :=
  pyEndsWith entry ".mkv" || pyEndsWith entry ".mkv." || pyHasSub ".mkv" (pyLower entry)

/-- Loop body of `check_once` over one directory entry, acting on
(current set, new-file paths, seen set). -/
def checkStep (folder_path : String) (st : List String × List String × List String)
    (entry : String) : List String × List String × List String :=
  if entryMatches entry then
    let current := if listHas st.1 entry then st.1 else st.1 ++ [entry]
    if listHas st.2.2 entry then (current, st.2.1, st.2.2)
    else (current, st.2.1 ++ [pyJoin folder_path entry], st.2.2 ++ [entry])
  else st

/-- `check_once`: with the folder present, fold the loop body over the
listing, return the new paths and replace the seen set with the current
matching set; with the folder absent, return nothing and keep the state. -/
def FolderWatcher.check_once (w : FolderWatcher) (dir_exists : Bool) (listing : List String) :
    List String × FolderWatcher :=
  if dir_exists then
    let st := listing.foldl (checkStep w.folder_path) ([], [], w.seen_files)
    (st.2.1, ⟨w.folder_path, st.1⟩)
  else ([], w)

/-! ### Helper lemmas -/

/-- Shared concrete configuration for witnesses and counterexamples. -/
def cfgDemo : MKVConfig := ⟨"/c", "/p", "/d", "/usr/bin/mkvmerge", true⟩

/-- Shared concrete catalog with one Tamil-labelled track. -/
def tamilTrack : AudioTrack := ⟨1, "AAC", some "tam", none⟩

/-- Shared concrete staging-directory set. -/
def dirsDemo : List String := ["/c", "/p", "/d"]

theorem filesOfMkdirIte (fs : FSState) (p : String) (b : Bool) :
    (if b then fsMkdirs fs p else fs).files = fs.files := by
  cases b <;> simp [fsMkdirs]

theorem filesOfMkdirIteP (c : Prop) [Decidable c] (fs : FSState) (p : String) :
    (if c then fsMkdirs fs p else fs).files = fs.files := by
  by_cases h : c <;> simp [h, fsMkdirs]

/-- `_move_back_to_completed` on a state whose file list is exactly the
source file: the result is exactly the renamed file under `completed/`. -/
theorem move_back_files (cfg : MKVConfig) (fsx : FSState) (input content status : String)
    (hf : fsx.files = [(input, content)]) :
    (move_back_to_completed cfg fsx input status).1.files
      = [(pyJoin cfg.completed_dir ((pySplitext (pyBasename input)).1 ++ "." ++ status ++
          (pySplitext (pyBasename input)).2), content)] := by
  simp [move_back_to_completed, fsMove, moveFiles, fsExistsB, fsHasFile, lookupFile, hf]

theorem lookupFile_append_right (l₁ l₂ : List (String × String)) (q : String)
    (h : ∀ f ∈ l₁, f.1 ≠ q) : lookupFile (l₁ ++ l₂) q = lookupFile l₂ q := by
  induction l₁ with
  | nil => rfl
  | cons hd tl ih =>
    obtain ⟨p, c⟩ := hd
    have hhd : p ≠ q := h (p, c) (List.mem_cons_self _ tl)
    have hstep : lookupFile (((p, c) :: tl) ++ l₂) q = lookupFile (tl ++ l₂) q := by
      simp [lookupFile, hhd]
    rw [hstep, ih (fun f hf => h f (List.mem_cons_of_mem _ hf))]

theorem mem_filterMove_ne_src (l : List (String × String)) (src dst : String) :
    ∀ f ∈ l.filter (fun f => f.1 != src && f.1 != dst), f.1 ≠ src := by
  intro f hf
  have := (List.mem_filter.mp hf).2
  simp only [Bool.and_eq_true, bne_iff_ne] at this
  exact this.1

theorem mem_filterMove_ne_dst (l : List (String × String)) (src dst : String) :
    ∀ f ∈ l.filter (fun f => f.1 != src && f.1 != dst), f.1 ≠ dst := by
  intro f hf
  have := (List.mem_filter.mp hf).2
  simp only [Bool.and_eq_true, bne_iff_ne] at this
  exact this.2

/-- Looking up the destination after a move finds the moved contents. -/
theorem lookupFile_moveFiles_dst (l : List (String × String)) (src dst c : String)
    (h : lookupFile l src = some c) : lookupFile (moveFiles l src dst) dst = some c := by
  unfold moveFiles
  rw [h]
  rw [lookupFile_append_right _ _ _ (mem_filterMove_ne_dst l src dst)]
  simp [lookupFile]

/-- Looking up the source after a move to a different path finds nothing. -/
theorem lookupFile_moveFiles_src (l : List (String × String)) (src dst c : String)
    (h : lookupFile l src = some c) (hne : src ≠ dst) :
    lookupFile (moveFiles l src dst) src = none := by
  unfold moveFiles
  rw [h]
  rw [lookupFile_append_right _ _ _ (mem_filterMove_ne_src l src dst)]
  simp [lookupFile, Ne.symm hne]

theorem fsHasFile_of_lookup (l : List (String × String)) (q c : String)
    (h : lookupFile l q = some c) : fsHasFile l q = true := by
  simp [fsHasFile, h]

/-! ### Claim C10 — remux command shape -/

/-- Claim C10: for a non-empty selection the command is exactly
`[mkvmerge, -o, out, --audio-tracks, comma-join, in]`; an empty
selection silently omits the `--audio-tracks` flag. -/
theorem c10_build_command (mk inp outp : String) (ids : List Nat) (h : ids ≠ []) :
    build_mkvmerge_command mk inp outp ids =
      [mk, "-o", outp, "--audio-tracks", String.intercalate "," (ids.map toString), inp]
    ∧ build_mkvmerge_command mk inp outp [] = [mk, "-o", outp, inp] := by
  constructor
  · have : ids.isEmpty = false := by
      cases ids with
      | nil => exact absurd rfl h
      | cons a l => rfl
    simp [build_mkvmerge_command, this]
  · simp [build_mkvmerge_command]

/-- Witness for C10 at a concrete selection. -/
theorem c10_witness :
    ([1, 2] : List Nat) ≠ []
    ∧ build_mkvmerge_command "/usr/bin/mkvmerge" "/c/x.mkv" "/p/x.mkv" [1, 2] =
        ["/usr/bin/mkvmerge", "-o", "/p/x.mkv", "--audio-tracks", "1,2", "/c/x.mkv"]
    ∧ build_mkvmerge_command "/usr/bin/mkvmerge" "/c/x.mkv" "/p/x.mkv" [] =
        ["/usr/bin/mkvmerge", "-o", "/p/x.mkv", "/c/x.mkv"] := by
  refine ⟨by decide, ?_, ?_⟩
  · rw [(c10_build_command "/usr/bin/mkvmerge" "/c/x.mkv" "/p/x.mkv" [1, 2] (by decide)).1]
    rfl
  · exact (c10_build_command "/usr/bin/mkvmerge" "/c/x.mkv" "/p/x.mkv" [1, 2] (by decide)).2

/-! ### Claim C5 — parser correctness (refuted: the in-loop flush duplicates) -/

/-- Claim C5: on a two-audio-block input whose first block carries a
language line, the scanner emits three records (the in-loop flush
re-appends track 0 without checking it was already accumulated), and a
language line of a following non-audio block overwrites the previous
audio track's language.  Both contradict "exactly N records whose fields
match the input". -/
theorem c5_parser_failing_inputs :
    identify_audio_tracks
        "Track ID 0: audio (AAC)\nlanguage: tam\nTrack ID 1: audio (MP3)" =
      [⟨0, "AAC", some "tam", none⟩, ⟨0, "AAC", none, none⟩, ⟨1, "MP3", none, none⟩]
    ∧ identify_audio_tracks
        "Track ID 0: audio (AAC)\nlanguage: tam\nTrack ID 1: video (h264)\nlanguage: und" =
      [⟨0, "AAC", some "und", none⟩] := by
  exact ⟨by decide, by decide⟩

/-! ### Claim C6 — selection policy (fallback picks first in catalog
order, not lowest id) -/

/-- Counterexample to C6 as stated: for the unordered no-match catalog
`[id 5, id 2]` with fallback enabled, the code returns the first catalog
entry `[5]`, not the lowest-track-id entry `[2]`. -/
theorem c6_counterexample :
    find_tamil_tracks true [⟨5, "AAC", some "eng", none⟩, ⟨2, "AAC", some "eng", none⟩] = [5]
    ∧ ([5] : List Nat) ≠ [2] := by
  exact ⟨by decide, by decide⟩

/-- Claim C6, amended: a track with a target language code is always
selected (any catalog order, any fallback setting); with no per-track
match and fallback enabled, selection is exactly the first catalog entry
(the lowest id only when the catalog is id-sorted); with fallback
disabled and no match, or on an empty catalog, selection is empty. -/
theorem c6_selection :
    (∀ (kf : Bool) (ts : List AudioTrack) (t : AudioTrack), t ∈ ts →
        (t.language_code = some "tam" ∨ t.language_code = some "ta") →
        t.track_id ∈ find_tamil_tracks kf ts)
    ∧ (∀ (t : AudioTrack) (rest : List AudioTrack),
        (∀ u ∈ t :: rest, trackMatchesTamil u = false) →
        find_tamil_tracks true (t :: rest) = [t.track_id])
    ∧ (∀ ts : List AudioTrack, (∀ u ∈ ts, trackMatchesTamil u = false) →
        find_tamil_tracks false ts = [])
    ∧ (∀ kf : Bool, find_tamil_tracks kf [] = []) := by
  refine ⟨?_, ?_, ?_, ?_⟩
  · intro kf ts t ht hl
    have hm : trackMatchesTamil t = true := by
      rcases hl with h | h <;> simp [trackMatchesTamil, h]
    have hm2 : t.track_id ∈ (ts.filter trackMatchesTamil).map (fun t => t.track_id) :=
      List.mem_map_of_mem _ (List.mem_filter.mpr ⟨ht, hm⟩)
    unfold find_tamil_tracks
    cases hft : (ts.filter trackMatchesTamil).map (fun t => t.track_id) with
    | nil => rw [hft] at hm2; cases hm2
    | cons a l =>
      rw [hft] at hm2
      simpa [hft] using hm2
  · intro t rest h
    have hf : (t :: rest).filter trackMatchesTamil = [] := by
      rw [List.filter_eq_nil_iff]
      intro u hu
      simp [h u hu]
    simp [find_tamil_tracks, hf]
  · intro ts h
    have hf : ts.filter trackMatchesTamil = [] := by
      rw [List.filter_eq_nil_iff]
      intro u hu
      simp [h u hu]
    simp [find_tamil_tracks, hf]
  · intro kf
    cases kf <;> rfl

/-- Witness for C6 (amended) at concrete catalogs. -/
theorem c6_selection_witness :
    ((⟨2, "AAC", some "ta", none⟩ : AudioTrack) ∈
      ([⟨7, "MP3", none, none⟩, ⟨2, "AAC", some "ta", none⟩] : List AudioTrack))
    ∧ 2 ∈ find_tamil_tracks false [⟨7, "MP3", none, none⟩, ⟨2, "AAC", some "ta", none⟩]
    ∧ find_tamil_tracks true [⟨9, "AAC", some "eng", none⟩] = [9]
    ∧ find_tamil_tracks false [⟨9, "AAC", some "eng", none⟩] = []
    ∧ find_tamil_tracks true [] = [] := by
  refine ⟨by decide, ?_, ?_, ?_, ?_⟩
  · exact c6_selection.1 false [⟨7, "MP3", none, none⟩, ⟨2, "AAC", some "ta", none⟩]
      ⟨2, "AAC", some "ta", none⟩ (by decide) (Or.inr rfl)
  · exact c6_selection.2.1 ⟨9, "AAC", some "eng", none⟩ [] (by decide)
  · exact c6_selection.2.2.1 [⟨9, "AAC", some "eng", none⟩] (by decide)
  · exact c6_selection.2.2.2 true

/-! ### Claim C3 — failure-marker idempotence (refuted: the marker
accumulates) -/

/-- Counterexample to C3: two forced remux failures in a row leave one
file, but it is named `video.failed.failed.mkv` — `splitext` on the
current name `video.failed.mkv` splits off only `.mkv`, so a second
marker is inserted rather than none. -/
theorem c3_counterexample :
    (process_file cfgDemo [tamilTrack] (RemuxBehavior.exits 1 "err" none)
        (process_file cfgDemo [tamilTrack] (RemuxBehavior.exits 1 "err" none)
          ⟨[("/c/video.mkv", "D")], dirsDemo⟩ "/c/video.mkv" false).fs
        "/c/video.failed.mkv" false).fs.files
      = [("/c/video.failed.failed.mkv", "D")]
    ∧ pyBasename "/c/video.failed.failed.mkv" ≠ "video.failed.mkv" := by
  exact ⟨by decide, by decide⟩

/-- Claim C3, amended: re-processing an already `.failed`-marked file
through a forced remux failure leaves exactly one file in the incoming
directory, but with a second `.failed` marker inserted before the final
extension (the extension-insertion point is recomputed from the current
name, which makes the marker accumulate, not collapse). -/
theorem c3_marker_accumulates (cfg : MKVConfig) (dirs : List String)
    (input stem content stderr : String) (code : Int) (tracks : List AudioTrack)
    (htr : tracks.isEmpty = false)
    (hids : (find_tamil_tracks cfg.keep_first_audio_as_fallback tracks).isEmpty = false)
    (hcode : (code != 0) = true)
    (hsplit : pySplitext (pyBasename input) = (stem ++ ".failed", ".mkv")) :
    (process_file cfg tracks (RemuxBehavior.exits code stderr none)
        ⟨[(input, content)], dirs⟩ input false).fs.files
      = [(pyJoin cfg.completed_dir (stem ++ ".failed.failed.mkv"), content)]
    ∧ (process_file cfg tracks (RemuxBehavior.exits code stderr none)
        ⟨[(input, content)], dirs⟩ input false).result.success = false := by
  have hname : stem ++ ".failed" ++ "." ++ "failed" ++ ".mkv" = stem ++ ".failed.failed.mkv" := by
    rw [String.append_assoc, String.append_assoc, String.append_assoc]
    rfl
  constructor
  · simp only [process_file, htr, hids, Bool.false_eq_true, if_false, applyOut, hcode, if_true]
    rw [move_back_files cfg _ input content "failed" (filesOfMkdirIteP _ _ _)]
    simp [hsplit, hname]
  · simp only [process_file, htr, hids, Bool.false_eq_true, if_false, applyOut, hcode, if_true]

/-- Witness for C3 (amended): a concrete already-marked file re-fails. -/
theorem c3_marker_accumulates_witness :
    ([tamilTrack] : List AudioTrack).isEmpty = false
    ∧ (find_tamil_tracks cfgDemo.keep_first_audio_as_fallback [tamilTrack]).isEmpty = false
    ∧ (((1 : Int)) != 0) = true
    ∧ pySplitext (pyBasename "/c/video.failed.mkv") = ("video" ++ ".failed", ".mkv")
    ∧ (process_file cfgDemo [tamilTrack] (RemuxBehavior.exits 1 "err" none)
        ⟨[("/c/video.failed.mkv", "D")], dirsDemo⟩ "/c/video.failed.mkv" false).fs.files
      = [(pyJoin cfgDemo.completed_dir ("video" ++ ".failed.failed.mkv"), "D")] := by
  refine ⟨by decide, by decide, by decide, by decide, ?_⟩
  exact (c3_marker_accumulates cfgDemo dirsDemo "/c/video.failed.mkv" "video" "D" "err" 1
    [tamilTrack] (by decide) (by decide) (by decide) (by decide)).1

/-! ### Claim C7 — dry-run frame property (refuted: parent directories
are still created under the in-progress root) -/

/-- Helper: selection on the empty catalog is empty for either fallback
setting. -/
theorem find_tamil_tracks_nil (kf : Bool) : find_tamil_tracks kf [] = [] := by
  cases kf <;> rfl

/-- Counterexample to C7: a dry run over a nested input with a non-empty
selection mutates the staging state, creating `sub/` under the
in-progress root (the `os.makedirs` call precedes the dry-run test). -/
theorem c7_counterexample :
    (process_file cfgDemo [tamilTrack] (RemuxBehavior.exits 0 "" none)
        ⟨[("/c/sub/x.mkv", "DATA")], dirsDemo⟩ "/c/sub/x.mkv" true).fs
      ≠ ⟨[("/c/sub/x.mkv", "DATA")], dirsDemo⟩
    ∧ (process_file cfgDemo [tamilTrack] (RemuxBehavior.exits 0 "" none)
        ⟨[("/c/sub/x.mkv", "DATA")], dirsDemo⟩ "/c/sub/x.mkv" true).fs.dirs
      = dirsDemo ++ ["/p/sub"] := by
  exact ⟨by decide, by decide⟩

/-- Claim C7, amended: a dry run performs no moves, no deletion, and no
remux invocation, leaves every file byte-for-byte unchanged, and reports
correct retained/total counts with success — but it may still create the
parent directory of the would-be output under the in-progress root, so
the staging directories are not always left fully unchanged. -/
theorem c7_dry_run (cfg : MKVConfig) (tracks : List AudioTrack) (remux : RemuxBehavior)
    (fs : FSState) (input : String) :
    (process_file cfg tracks remux fs input true).fs.files = fs.files
    ∧ (process_file cfg tracks remux fs input true).invoked_remux = none
    ∧ (process_file cfg tracks remux fs input true).result.success = true
    ∧ (process_file cfg tracks remux fs input true).result.tamil_tracks_found
        = (find_tamil_tracks cfg.keep_first_audio_as_fallback tracks).length
    ∧ (process_file cfg tracks remux fs input true).result.total_audio_tracks
        = tracks.length := by
  by_cases h1 : tracks.isEmpty = true
  · have h0 : tracks = [] := by
      cases tracks with
      | nil => rfl
      | cons a l => simp [List.isEmpty] at h1
    subst h0
    simp [process_file, find_tamil_tracks_nil]
  · by_cases h2 : (find_tamil_tracks cfg.keep_first_audio_as_fallback tracks).isEmpty = true
    · have hlen : (find_tamil_tracks cfg.keep_first_audio_as_fallback tracks).length = 0 := by
        cases hft : find_tamil_tracks cfg.keep_first_audio_as_fallback tracks with
        | nil => rfl
        | cons a l => rw [hft] at h2; simp [List.isEmpty] at h2
      simp [process_file, h1, h2, hlen]
    · simp [process_file, h1, h2, filesOfMkdirIteP]

/-! ### Claim C8 — zero-audio-track pass-through -/

/-- `_move_to_processed` for a source under `completed/` (and not under
`processing/` as a string prefix): the destination is `processed/` at the
same relative subpath and the file list is the corresponding move. -/
theorem move_to_processed_files (cfg : MKVConfig) (fs : FSState) (src content : String)
    (hsp : strStarts src cfg.processing_dir = false)
    (hsc : strStarts src cfg.completed_dir = true)
    (hlook : lookupFile fs.files src = some content) :
    (move_to_processed cfg fs src).1.files
      = moveFiles fs.files src (pyJoin cfg.processed_dir (pyRelpath src cfg.completed_dir))
    ∧ (move_to_processed cfg fs src).2
      = pyJoin cfg.processed_dir (pyRelpath src cfg.completed_dir) := by
  constructor
  · simp only [move_to_processed, hsp, hsc, Bool.false_eq_true, if_false, if_true,
      fsExistsB, fsHasFile, filesOfMkdirIteP, hlook, Option.isSome_some, Bool.true_or,
      if_pos, fsMove]
  · simp only [move_to_processed, hsp, hsc, Bool.false_eq_true, if_false, if_true]

/-- Claim C8: on a zero-audio-track inspection result, `process_file`
launches no remux, reports success with zero counts and the descriptive
note, and the untouched file ends up in `processed/` at the same relative
subpath, gone from `completed/`. -/
theorem c8_zero_tracks_passthrough (cfg : MKVConfig) (fs : FSState)
    (remux : RemuxBehavior) (input content : String)
    (hlook : lookupFile fs.files input = some content)
    (hsp : strStarts input cfg.processing_dir = false)
    (hsc : strStarts input cfg.completed_dir = true)
    (hne : input ≠ pyJoin cfg.processed_dir (pyRelpath input cfg.completed_dir)) :
    (process_file cfg [] remux fs input false).invoked_remux = none
    ∧ (process_file cfg [] remux fs input false).result
        = ⟨true, input, some (pyJoin cfg.processed_dir (pyRelpath input cfg.completed_dir)),
            0, 0, some "No audio tracks found"⟩
    ∧ lookupFile (process_file cfg [] remux fs input false).fs.files
        (pyJoin cfg.processed_dir (pyRelpath input cfg.completed_dir)) = some content
    ∧ lookupFile (process_file cfg [] remux fs input false).fs.files input = none := by
  have hmv := move_to_processed_files cfg fs input content hsp hsc hlook
  have hpf : process_file cfg [] remux fs input false
      = ⟨(move_to_processed cfg fs input).1,
          ⟨true, input, some (pyJoin cfg.processed_dir (pyRelpath input cfg.completed_dir)),
            0, 0, some "No audio tracks found"⟩, none⟩ := by
    simp [process_file]
  rw [hpf]
  refine ⟨rfl, rfl, ?_, ?_⟩
  · rw [hmv.1]
    exact lookupFile_moveFiles_dst fs.files input _ content hlook
  · rw [hmv.1]
    exact lookupFile_moveFiles_src fs.files input _ content hlook hne

/-- Witness for C8 at a concrete nested input. -/
theorem c8_zero_tracks_witness :
    lookupFile [("/c/s/x.mkv", "DATA")] "/c/s/x.mkv" = some "DATA"
    ∧ strStarts "/c/s/x.mkv" "/p" = false
    ∧ strStarts "/c/s/x.mkv" "/c" = true
    ∧ "/c/s/x.mkv" ≠ pyJoin "/d" (pyRelpath "/c/s/x.mkv" "/c")
    ∧ lookupFile
        (process_file cfgDemo [] (RemuxBehavior.exits 0 "" none)
          ⟨[("/c/s/x.mkv", "DATA")], dirsDemo⟩ "/c/s/x.mkv" false).fs.files
        (pyJoin "/d" (pyRelpath "/c/s/x.mkv" "/c")) = some "DATA"
    ∧ (process_file cfgDemo [] (RemuxBehavior.exits 0 "" none)
        ⟨[("/c/s/x.mkv", "DATA")], dirsDemo⟩ "/c/s/x.mkv" false).result.success = true := by
  refine ⟨by decide, by decide, by decide, by decide, ?_, ?_⟩
  · exact (c8_zero_tracks_passthrough cfgDemo ⟨[("/c/s/x.mkv", "DATA")], dirsDemo⟩
      (RemuxBehavior.exits 0 "" none) "/c/s/x.mkv" "DATA" (by decide) (by decide) (by decide)
      (by decide)).2.2.1
  · rw [(c8_zero_tracks_passthrough cfgDemo ⟨[("/c/s/x.mkv", "DATA")], dirsDemo⟩
      (RemuxBehavior.exits 0 "" none) "/c/s/x.mkv" "DATA" (by decide) (by decide) (by decide)
      (by decide)).2.1]

/-! ### Claim C2 — terminal failures (refuted for the timeout case:
no `.failed` rename happens there) -/

/-- Counterexample to C2: a remux timeout is a terminal failure
(success=false), yet the original keeps its unchanged name in
`completed/` and no `.failed`-marked file exists anywhere. -/
theorem c2_counterexample :
    (process_file cfgDemo [tamilTrack] (RemuxBehavior.timesOut none)
        ⟨[("/c/x.mkv", "DATA")], dirsDemo⟩ "/c/x.mkv" false).result.success = false
    ∧ (process_file cfgDemo [tamilTrack] (RemuxBehavior.timesOut none)
        ⟨[("/c/x.mkv", "DATA")], dirsDemo⟩ "/c/x.mkv" false).fs
      = ⟨[("/c/x.mkv", "DATA")], dirsDemo⟩
    ∧ lookupFile (process_file cfgDemo [tamilTrack] (RemuxBehavior.timesOut none)
        ⟨[("/c/x.mkv", "DATA")], dirsDemo⟩ "/c/x.mkv" false).fs.files "/c/x.failed.mkv"
      = none := by
  exact ⟨by decide, by decide, by decide⟩

/-- `_move_back_to_completed` whenever the source file exists: the
effect on the file list is the move to the renamed destination. -/
theorem move_back_files_general (cfg : MKVConfig) (fsx : FSState) (input status : String)
    (hex : fsHasFile fsx.files input = true) :
    (move_back_to_completed cfg fsx input status).1.files
      = moveFiles fsx.files input
          (pyJoin cfg.completed_dir ((pySplitext (pyBasename input)).1 ++ "." ++ status ++
            (pySplitext (pyBasename input)).2)) := by
  simp [move_back_to_completed, fsExistsB, hex, fsMove]

/-- Claim C2, amended: on a non-zero remux exit and on a verification
failure the original — which never left the incoming directory — is
renamed in place with a `.failed` marker before its extension (on a
verification failure the empty output additionally remains in the
in-progress directory); on a remux timeout, however, the original simply
stays in the incoming directory under its unchanged name, with no
`.failed` marker.  In no case is the original left in the in-progress
directory. -/
theorem c2_terminal_failures :
    (∀ (cfg : MKVConfig) (dirs : List String) (input content stderr : String) (code : Int)
        (tracks : List AudioTrack),
      tracks.isEmpty = false →
      (find_tamil_tracks cfg.keep_first_audio_as_fallback tracks).isEmpty = false →
      (code != 0) = true →
      (process_file cfg tracks (RemuxBehavior.exits code stderr none)
          ⟨[(input, content)], dirs⟩ input false).fs.files
        = [(pyJoin cfg.completed_dir ((pySplitext (pyBasename input)).1 ++ "." ++ "failed" ++
            (pySplitext (pyBasename input)).2), content)]
      ∧ (process_file cfg tracks (RemuxBehavior.exits code stderr none)
          ⟨[(input, content)], dirs⟩ input false).result.success = false)
    ∧ (∀ (cfg : MKVConfig) (dirs : List String) (input content stderr : String)
        (tracks : List AudioTrack),
      tracks.isEmpty = false →
      (find_tamil_tracks cfg.keep_first_audio_as_fallback tracks).isEmpty = false →
      input ≠ pyJoin cfg.processing_dir (pyRelpath input cfg.completed_dir) →
      pyJoin cfg.processing_dir (pyRelpath input cfg.completed_dir)
          ≠ pyJoin cfg.completed_dir ((pySplitext (pyBasename input)).1 ++ "." ++ "failed" ++
              (pySplitext (pyBasename input)).2) →
      input ≠ pyJoin cfg.completed_dir ((pySplitext (pyBasename input)).1 ++ "." ++
          "failed" ++ (pySplitext (pyBasename input)).2) →
      lookupFile (process_file cfg tracks (RemuxBehavior.exits 0 stderr (some ""))
          ⟨[(input, content)], dirs⟩ input false).fs.files
        (pyJoin cfg.completed_dir ((pySplitext (pyBasename input)).1 ++ "." ++ "failed" ++
          (pySplitext (pyBasename input)).2)) = some content
      ∧ lookupFile (process_file cfg tracks (RemuxBehavior.exits 0 stderr (some ""))
          ⟨[(input, content)], dirs⟩ input false).fs.files input = none
      ∧ lookupFile (process_file cfg tracks (RemuxBehavior.exits 0 stderr (some ""))
          ⟨[(input, content)], dirs⟩ input false).fs.files
        (pyJoin cfg.processing_dir (pyRelpath input cfg.completed_dir)) = some ""
      ∧ (process_file cfg tracks (RemuxBehavior.exits 0 stderr (some ""))
          ⟨[(input, content)], dirs⟩ input false).result.error
        = some "Output file not created or empty")
    ∧ (∀ (cfg : MKVConfig) (dirs : List String) (input content : String)
        (tracks : List AudioTrack),
      tracks.isEmpty = false →
      (find_tamil_tracks cfg.keep_first_audio_as_fallback tracks).isEmpty = false →
      input ≠ pyJoin cfg.completed_dir ((pySplitext (pyBasename input)).1 ++ "." ++
          "failed" ++ (pySplitext (pyBasename input)).2) →
      (process_file cfg tracks (RemuxBehavior.timesOut none)
          ⟨[(input, content)], dirs⟩ input false).fs.files = [(input, content)]
      ∧ lookupFile (process_file cfg tracks (RemuxBehavior.timesOut none)
          ⟨[(input, content)], dirs⟩ input false).fs.files
        (pyJoin cfg.completed_dir ((pySplitext (pyBasename input)).1 ++ "." ++ "failed" ++
          (pySplitext (pyBasename input)).2)) = none
      ∧ (process_file cfg tracks (RemuxBehavior.timesOut none)
          ⟨[(input, content)], dirs⟩ input false).result.success = false
      ∧ (process_file cfg tracks (RemuxBehavior.timesOut none)
          ⟨[(input, content)], dirs⟩ input false).result.error
        = some "mkvmerge processing timeout") := by
  refine ⟨?_, ?_, ?_⟩
  · intro cfg dirs input content stderr code tracks htr hids hcode
    constructor
    · simp only [process_file, htr, hids, Bool.false_eq_true, if_false, applyOut, hcode,
        if_true]
      rw [move_back_files cfg _ input content "failed" (filesOfMkdirIteP _ _ _)]
    · simp only [process_file, htr, hids, Bool.false_eq_true, if_false, applyOut, hcode,
        if_true]
  · intro cfg dirs input content stderr tracks htr hids hip hpd hid
    have hlen0 : (String.length "" == 0) = true := rfl
    simp [process_file, htr, hids, applyOut, fsWrite, filesOfMkdirIteP,
      move_back_to_completed, fsMove, moveFiles, fsExistsB, fsHasFile, fsFileSize, lookupFile,
      hip, hpd, hid, hlen0, Ne.symm hip, Ne.symm hpd, Ne.symm hid]
  · intro cfg dirs input content tracks htr hids hif
    simp [process_file, htr, hids, applyOut, filesOfMkdirIteP, lookupFile, hif]

/-- Witness for C2 (amended) at concrete failing runs. -/
theorem c2_terminal_failures_witness :
    (process_file cfgDemo [tamilTrack] (RemuxBehavior.exits 1 "boom" none)
        ⟨[("/c/x.mkv", "DATA")], dirsDemo⟩ "/c/x.mkv" false).fs.files
      = [(pyJoin "/c" ((pySplitext (pyBasename "/c/x.mkv")).1 ++ "." ++ "failed" ++
          (pySplitext (pyBasename "/c/x.mkv")).2), "DATA")]
    ∧ lookupFile (process_file cfgDemo [tamilTrack] (RemuxBehavior.exits 0 "" (some ""))
        ⟨[("/c/x.mkv", "DATA")], dirsDemo⟩ "/c/x.mkv" false).fs.files
      (pyJoin "/c" ((pySplitext (pyBasename "/c/x.mkv")).1 ++ "." ++ "failed" ++
        (pySplitext (pyBasename "/c/x.mkv")).2)) = some "DATA"
    ∧ (process_file cfgDemo [tamilTrack] (RemuxBehavior.timesOut none)
        ⟨[("/c/x.mkv", "DATA")], dirsDemo⟩ "/c/x.mkv" false).fs.files
      = [("/c/x.mkv", "DATA")] := by
  refine ⟨?_, ?_, ?_⟩
  · exact (c2_terminal_failures.1 cfgDemo dirsDemo "/c/x.mkv" "DATA" "boom" 1 [tamilTrack]
      (by decide) (by decide) (by decide)).1
  · exact (c2_terminal_failures.2.1 cfgDemo dirsDemo "/c/x.mkv" "DATA" "" [tamilTrack]
      (by decide) (by decide) (by decide) (by decide) (by decide)).1
  · exact (c2_terminal_failures.2.2 cfgDemo dirsDemo "/c/x.mkv" "DATA" [tamilTrack]
      (by decide) (by decide) (by decide)).1

/-! ### Claim C1 — exactly-one-location invariant (refuted: a failed
verification leaves the empty output in `processing/` next to the
renamed original in `completed/`) -/

/-- Counterexample to C1: after the terminal Failed outcome of a
verification failure, job-derived files sit in two staging directories
at once — the zero-size remux output stays at `/p/x.mkv` while the
original is renamed to `/c/x.failed.mkv`. -/
theorem c1_counterexample :
    (process_file cfgDemo [tamilTrack] (RemuxBehavior.exits 0 "" (some ""))
        ⟨[("/c/x.mkv", "DATA")], dirsDemo⟩ "/c/x.mkv" false).result.success = false
    ∧ (process_file cfgDemo [tamilTrack] (RemuxBehavior.exits 0 "" (some ""))
        ⟨[("/c/x.mkv", "DATA")], dirsDemo⟩ "/c/x.mkv" false).fs.files
      = [("/p/x.mkv", ""), ("/c/x.failed.mkv", "DATA")]
    ∧ ((process_file cfgDemo [tamilTrack] (RemuxBehavior.exits 0 "" (some ""))
        ⟨[("/c/x.mkv", "DATA")], dirsDemo⟩ "/c/x.mkv" false).fs.files.filter
        (fun f => strStarts f.1 "/c/")).length = 1
    ∧ ((process_file cfgDemo [tamilTrack] (RemuxBehavior.exits 0 "" (some ""))
        ⟨[("/c/x.mkv", "DATA")], dirsDemo⟩ "/c/x.mkv" false).fs.files.filter
        (fun f => strStarts f.1 "/p/")).length = 1 := by
  exact ⟨by decide, by decide, by decide, by decide⟩

/-- Claim C1, amended: for a single-file job, after a *successful*
terminal outcome the filesystem holds exactly one job file — the remux
output in the done directory at the original relative subpath (the
original was deleted from incoming, the working output moved out of
in-progress); after a failed terminal outcome in which the tool left no
partial output, it likewise holds exactly the renamed original in the
incoming directory.  (When a failing run does leave partial or empty
output, that extra file remains in the in-progress directory — the
counterexample — and during the remux itself the original and the
nascent output coexist in two directories.) -/
theorem c1_terminal_locations :
    (∀ (cfg : MKVConfig) (dirs : List String) (input content outc stderr : String)
        (tracks : List AudioTrack),
      tracks.isEmpty = false →
      (find_tamil_tracks cfg.keep_first_audio_as_fallback tracks).isEmpty = false →
      input ≠ pyJoin cfg.processing_dir (pyRelpath input cfg.completed_dir) →
      strStarts (pyJoin cfg.processing_dir (pyRelpath input cfg.completed_dir))
          cfg.processing_dir = true →
      pyRelpath (pyJoin cfg.processing_dir (pyRelpath input cfg.completed_dir))
          cfg.processing_dir = pyRelpath input cfg.completed_dir →
      input ≠ pyJoin cfg.processed_dir (pyRelpath input cfg.completed_dir) →
      (String.length outc == 0) = false →
      (process_file cfg tracks (RemuxBehavior.exits 0 stderr (some outc))
          ⟨[(input, content)], dirs⟩ input false).fs.files
        = [(pyJoin cfg.processed_dir (pyRelpath input cfg.completed_dir), outc)]
      ∧ (process_file cfg tracks (RemuxBehavior.exits 0 stderr (some outc))
          ⟨[(input, content)], dirs⟩ input false).result.success = true)
    ∧ (∀ (cfg : MKVConfig) (dirs : List String) (input content stderr : String) (code : Int)
        (tracks : List AudioTrack),
      tracks.isEmpty = false →
      (find_tamil_tracks cfg.keep_first_audio_as_fallback tracks).isEmpty = false →
      (code != 0) = true →
      (process_file cfg tracks (RemuxBehavior.exits code stderr none)
          ⟨[(input, content)], dirs⟩ input false).fs.files
        = [(pyJoin cfg.completed_dir ((pySplitext (pyBasename input)).1 ++ "." ++ "failed" ++
            (pySplitext (pyBasename input)).2), content)]) := by
  constructor
  · intro cfg dirs input content outc stderr tracks htr hids hip hswp hr2 hid hlen
    simp [process_file, htr, hids, applyOut, fsWrite, filesOfMkdirIteP, move_to_processed,
      hswp, hr2, fsMove, moveFiles, fsExistsB, fsHasFile, fsFileSize, fsRemoveFile,
      lookupFile, hip, hid, hlen, Ne.symm hip, Ne.symm hid]
  · intro cfg dirs input content stderr code tracks htr hids hcode
    simp only [process_file, htr, hids, Bool.false_eq_true, if_false, applyOut, hcode,
      if_true]
    rw [move_back_files cfg _ input content "failed" (filesOfMkdirIteP _ _ _)]

/-- Witness for C1 (amended) at a concrete success and a concrete clean
failure. -/
theorem c1_terminal_locations_witness :
    (process_file cfgDemo [tamilTrack] (RemuxBehavior.exits 0 "" (some "OUT"))
        ⟨[("/c/x.mkv", "DATA")], dirsDemo⟩ "/c/x.mkv" false).fs.files
      = [(pyJoin "/d" (pyRelpath "/c/x.mkv" "/c"), "OUT")]
    ∧ (process_file cfgDemo [tamilTrack] (RemuxBehavior.exits 2 "oops" none)
        ⟨[("/c/y.mkv", "DATA")], dirsDemo⟩ "/c/y.mkv" false).fs.files
      = [(pyJoin "/c" ((pySplitext (pyBasename "/c/y.mkv")).1 ++ "." ++ "failed" ++
          (pySplitext (pyBasename "/c/y.mkv")).2), "DATA")] := by
  constructor
  · exact (c1_terminal_locations.1 cfgDemo dirsDemo "/c/x.mkv" "DATA" "OUT" "" [tamilTrack]
      (by decide) (by decide) (by decide) (by decide) (by decide) (by decide) (by decide)).1
  · exact c1_terminal_locations.2 cfgDemo dirsDemo "/c/y.mkv" "DATA" "oops" 2 [tamilTrack]
      (by decide) (by decide) (by decide)

/-! ### Claim C4 — staging before remux (refuted: the input is never
relocated; the remux reads from the incoming copy) -/

/-- Counterexample to C4: with a non-empty selection the remux tool is
invoked with the *incoming* path `/c/x.mkv` as its input (final argv
element) while the filesystem is untouched — the file was never
relocated into the in-progress directory before (or during) the
invocation, and nothing exists at the in-progress path. -/
theorem c4_counterexample :
    (process_file cfgDemo [tamilTrack] (RemuxBehavior.timesOut none)
        ⟨[("/c/x.mkv", "DATA")], dirsDemo⟩ "/c/x.mkv" false).invoked_remux
      = some ["/usr/bin/mkvmerge", "-o", "/p/x.mkv", "--audio-tracks", "1", "/c/x.mkv"]
    ∧ (process_file cfgDemo [tamilTrack] (RemuxBehavior.timesOut none)
        ⟨[("/c/x.mkv", "DATA")], dirsDemo⟩ "/c/x.mkv" false).fs
      = ⟨[("/c/x.mkv", "DATA")], dirsDemo⟩
    ∧ lookupFile (process_file cfgDemo [tamilTrack] (RemuxBehavior.timesOut none)
        ⟨[("/c/x.mkv", "DATA")], dirsDemo⟩ "/c/x.mkv" false).fs.files "/p/x.mkv" = none := by
  exact ⟨by decide, by decide, by decide⟩

/-- Claim C4, amended: with a non-empty selection (and not in dry-run),
`process_file` leaves the input file in the incoming directory, creates
the parent directory of the corresponding in-progress path when missing,
and invokes the remux tool *reading from the incoming copy* (the input
path is the command's final argument) and writing to the in-progress
path that preserves the relative subpath. -/
theorem c4_remux_reads_incoming :
    (∀ (cfg : MKVConfig) (tracks : List AudioTrack) (code : Int) (stderr : String)
        (out : Option String) (fs : FSState) (input : String),
      tracks.isEmpty = false →
      (find_tamil_tracks cfg.keep_first_audio_as_fallback tracks).isEmpty = false →
      (process_file cfg tracks (RemuxBehavior.exits code stderr out) fs input
          false).invoked_remux
        = some (build_mkvmerge_command cfg.mkvmerge_path input
            (pyJoin cfg.processing_dir (pyRelpath input cfg.completed_dir))
            (find_tamil_tracks cfg.keep_first_audio_as_fallback tracks)))
    ∧ (∀ (cfg : MKVConfig) (tracks : List AudioTrack) (out : Option String) (fs : FSState)
        (input : String),
      tracks.isEmpty = false →
      (find_tamil_tracks cfg.keep_first_audio_as_fallback tracks).isEmpty = false →
      (process_file cfg tracks (RemuxBehavior.timesOut out) fs input false).invoked_remux
        = some (build_mkvmerge_command cfg.mkvmerge_path input
            (pyJoin cfg.processing_dir (pyRelpath input cfg.completed_dir))
            (find_tamil_tracks cfg.keep_first_audio_as_fallback tracks)))
    ∧ (∀ (cfg : MKVConfig) (dirs : List String) (input content : String)
        (tracks : List AudioTrack),
      tracks.isEmpty = false →
      (find_tamil_tracks cfg.keep_first_audio_as_fallback tracks).isEmpty = false →
      (process_file cfg tracks (RemuxBehavior.timesOut none)
          ⟨[(input, content)], dirs⟩ input false).fs.files = [(input, content)]) := by
  refine ⟨?_, ?_, ?_⟩
  · intro cfg tracks code stderr out fs input htr hids
    simp only [process_file, htr, hids, Bool.false_eq_true, if_false]
    repeat first | rfl | split
  · intro cfg tracks out fs input htr hids
    simp only [process_file, htr, hids, Bool.false_eq_true, if_false]
  · intro cfg dirs input content tracks htr hids
    simp [process_file, htr, hids, applyOut, filesOfMkdirIteP]

/-- Witness for C4 (amended) at a concrete run. -/
theorem c4_remux_reads_incoming_witness :
    (process_file cfgDemo [tamilTrack] (RemuxBehavior.exits 0 "" (some "OUT"))
        ⟨[("/c/x.mkv", "DATA")], dirsDemo⟩ "/c/x.mkv" false).invoked_remux
      = some (build_mkvmerge_command "/usr/bin/mkvmerge" "/c/x.mkv"
          (pyJoin "/p" (pyRelpath "/c/x.mkv" "/c")) (find_tamil_tracks true [tamilTrack]))
    ∧ (process_file cfgDemo [tamilTrack] (RemuxBehavior.timesOut none)
        ⟨[("/c/x.mkv", "DATA")], dirsDemo⟩ "/c/x.mkv" false).fs.files
      = [("/c/x.mkv", "DATA")] := by
  constructor
  · exact c4_remux_reads_incoming.1 cfgDemo [tamilTrack] 0 "" (some "OUT")
      ⟨[("/c/x.mkv", "DATA")], dirsDemo⟩ "/c/x.mkv" (by decide) (by decide)
  · exact c4_remux_reads_incoming.2.2 cfgDemo dirsDemo "/c/x.mkv" "DATA" [tamilTrack]
      (by decide) (by decide)

/-! ### Claim C9 — watcher baseline and poll delta (refuted for files
matching the poll filter but not the stricter construction filter) -/

theorem listHas_iff_mem (l : List String) (x : String) : listHas l x = true ↔ x ∈ l := by
  simp [listHas, List.any_eq_true, beq_iff_eq]

theorem listHas_append_single (l : List String) (e x : String) :
    listHas (l ++ [e]) x = (listHas l x || e == x) := by
  simp [listHas]

/-- Characterization of the `check_once` loop: starting from a current
set disjoint from the (duplicate-free) listing, it accumulates the
matching entries, the paths of matching entries not yet seen, and marks
those as seen. -/
theorem checkFold (folder : String) : ∀ (listing cur newf seen : List String),
    listing.Nodup →
    (∀ e ∈ listing, listHas cur e = false) →
    listing.foldl (checkStep folder) (cur, newf, seen)
      = (cur ++ listing.filter entryMatches,
         newf ++ (listing.filter (fun e => entryMatches e && !(listHas seen e))).map
           (fun e => pyJoin folder e),
         seen ++ listing.filter (fun e => entryMatches e && !(listHas seen e))) := by
  intro listing
  induction listing with
  | nil => intro cur newf seen _ _; simp
  | cons e tl ih =>
    intro cur newf seen hnd hcur
    have hne : e ∉ tl := (List.nodup_cons.mp hnd).1
    have hnd' : tl.Nodup := (List.nodup_cons.mp hnd).2
    have hc : listHas cur e = false := hcur e (List.mem_cons_self e tl)
    have hcur' : ∀ x ∈ tl, listHas (cur ++ [e]) x = false := by
      intro x hx
      have h1 : listHas cur x = false := hcur x (List.mem_cons_of_mem e hx)
      have h2 : e ≠ x := fun h => hne (h ▸ hx)
      rw [listHas_append_single, h1]
      simp [h2]
    rw [List.foldl_cons]
    by_cases hm : entryMatches e = true
    · by_cases hs : listHas seen e = true
      · have hstep : checkStep folder (cur, newf, seen) e = (cur ++ [e], newf, seen) := by
          simp [checkStep, hm, hc, hs]
        rw [hstep, ih (cur ++ [e]) newf seen hnd' hcur']
        simp [hm, hs, List.filter_cons]
      · have hsf : listHas seen e = false := by
          cases h : listHas seen e with
          | false => rfl
          | true => exact absurd h hs
        have hstep : checkStep folder (cur, newf, seen) e
            = (cur ++ [e], newf ++ [pyJoin folder e], seen ++ [e]) := by
          simp [checkStep, hm, hc, hsf]
        rw [hstep, ih (cur ++ [e]) (newf ++ [pyJoin folder e]) (seen ++ [e]) hnd' hcur']
        have hfcongr : tl.filter (fun x => entryMatches x && !(listHas (seen ++ [e]) x))
            = tl.filter (fun x => entryMatches x && !(listHas seen x)) := by
          apply List.filter_congr
          intro x hx
          have h2 : (e == x) = false := beq_eq_false_iff_ne.mpr (fun h => hne (h ▸ hx))
          rw [listHas_append_single, h2]
          simp
        rw [hfcongr]
        simp [hm, hsf, List.filter_cons]
    · have hmf : entryMatches e = false := by
        cases h : entryMatches e with
        | false => rfl
        | true => exact absurd h hm
      have hstep : checkStep folder (cur, newf, seen) e = (cur, newf, seen) := by
        simp [checkStep, hmf]
      rw [hstep, ih cur newf seen hnd' (fun x hx => hcur x (List.mem_cons_of_mem e hx))]
      simp [hmf, List.filter_cons]

/-- `check_once` over an existing folder with a duplicate-free listing:
the returned paths are exactly the matching entries absent from the
previous seen set, and the seen set is replaced by the current matching
listing. -/
theorem check_once_spec (w : FolderWatcher) (listing : List String) (hnd : listing.Nodup) :
    (w.check_once true listing).1
      = (listing.filter (fun e => entryMatches e && !(listHas w.seen_files e))).map
          (fun e => pyJoin w.folder_path e)
    ∧ (w.check_once true listing).2.seen_files = listing.filter entryMatches := by
  have h := checkFold w.folder_path listing [] [] w.seen_files hnd (fun e _ => rfl)
  simp [FolderWatcher.check_once, h]

theorem stringDataInj (a b : String) (h : a.data = b.data) : a = b :=
  String.ext h

/-- Joining a fixed non-slash-terminated, non-empty folder with relative
entry names is injective in the entry. -/
theorem pyJoin_right_inj (f x y : String) (hf : f ≠ "") (hf2 : pyEndsWith f "/" = false)
    (hx : strStarts x "/" = false) (hy : strStarts y "/" = false)
    (h : pyJoin f x = pyJoin f y) : x = y := by
  have hfb : (f == "") = false := beq_eq_false_iff_ne.mpr hf
  simp only [pyJoin, hx, hy, hfb, hf2, Bool.false_eq_true, if_false, Bool.or_self] at h
  have h2 : f.data ++ '/' :: x.data = f.data ++ '/' :: y.data := by
    have h3 := congrArg String.data h
    simpa using h3
  have h4 := List.append_cancel_left h2
  exact stringDataInj x y (by simpa using h4)

/-- Counterexample to C9: `a.MKV` matches the poll's own
format-of-interest test, is present when the watcher is constructed, yet
is not captured in the baseline (which tests only a lowercase `.mkv`
suffix) and is therefore returned by the very first poll while still
present. -/
theorem c9_counterexample :
    entryMatches "a.MKV" = true
    ∧ (FolderWatcher.init "/w" true ["a.MKV"]).seen_files = []
    ∧ ((FolderWatcher.init "/w" true ["a.MKV"]).check_once true ["a.MKV"]).1
      = ["/w/a.MKV"] := by
  exact ⟨by decide, by decide, by decide⟩

/-- Claim C9, amended: the construction baseline captures exactly the
names ending in lowercase `.mkv` — not every name the poll filter
matches; each poll over a duplicate-free listing returns exactly the
poll-matching names absent from the previous watched set (as joined
paths) and replaces the watched set with the current matching listing
(so an externally removed file is forgotten without error); a name
already in the watched set and still present is never returned by the
poll and remains watched. -/
theorem c9_watcher_delta :
    (∀ (f : String) (listing : List String) (e : String), e ∈ listing →
      pyEndsWith e ".mkv" = true → e ∈ (FolderWatcher.init f true listing).seen_files)
    ∧ (∀ (w : FolderWatcher) (listing : List String), listing.Nodup →
      (w.check_once true listing).1
        = (listing.filter (fun e => entryMatches e && !(listHas w.seen_files e))).map
            (fun e => pyJoin w.folder_path e)
      ∧ (w.check_once true listing).2.seen_files = listing.filter entryMatches)
    ∧ (∀ (w : FolderWatcher) (listing : List String) (e : String), listing.Nodup →
      listHas w.seen_files e = true → e ∈ listing → entryMatches e = true →
      w.folder_path ≠ "" → pyEndsWith w.folder_path "/" = false →
      (∀ x ∈ listing, strStarts x "/" = false) →
      pyJoin w.folder_path e ∉ (w.check_once true listing).1
      ∧ listHas (w.check_once true listing).2.seen_files e = true) := by
  refine ⟨?_, ?_, ?_⟩
  · intro f listing e hmem hsuf
    simp only [FolderWatcher.init, if_true]
    exact List.mem_filter.mpr ⟨hmem, hsuf⟩
  · intro w listing hnd
    exact check_once_spec w listing hnd
  · intro w listing e hnd hs hmem hment hfne hfslash hnoabs
    obtain ⟨hnew, hseen⟩ := check_once_spec w listing hnd
    constructor
    · rw [hnew]
      intro hmemmap
      obtain ⟨x, hxf, hxeq⟩ := List.mem_map.mp hmemmap
      have hxl : x ∈ listing := (List.mem_filter.mp hxf).1
      have hxp := (List.mem_filter.mp hxf).2
      have hxe : x = e := pyJoin_right_inj w.folder_path x e hfne hfslash
        (hnoabs x hxl) (hnoabs e hmem) hxeq
      subst hxe
      simp [hs] at hxp
    · rw [hseen]
      exact (listHas_iff_mem _ _).mpr (List.mem_filter.mpr ⟨hmem, hment⟩)

/-- Witness for C9 (amended): baseline {a, b}, poll {a, b, c} yields
exactly {c}; a poll after b's removal yields nothing and forgets b;
a seen, still-present file is not returned. -/
theorem c9_watcher_delta_witness :
    "b.mkv" ∈ (FolderWatcher.init "/w" true ["a.mkv", "b.mkv"]).seen_files
    ∧ (FolderWatcher.check_once ⟨"/w", ["a.mkv", "b.mkv"]⟩ true
        ["a.mkv", "b.mkv", "c.mkv"]).1 = ["/w/c.mkv"]
    ∧ (FolderWatcher.check_once ⟨"/w", ["a.mkv", "b.mkv", "c.mkv"]⟩ true
        ["a.mkv", "c.mkv"]).1 = []
    ∧ (FolderWatcher.check_once ⟨"/w", ["a.mkv", "b.mkv", "c.mkv"]⟩ true
        ["a.mkv", "c.mkv"]).2.seen_files = ["a.mkv", "c.mkv"]
    ∧ "/w/a.mkv" ∉ (FolderWatcher.check_once ⟨"/w", ["a.mkv"]⟩ true ["a.mkv"]).1 := by
  refine ⟨?_, ?_, ?_, ?_, ?_⟩
  · exact c9_watcher_delta.1 "/w" ["a.mkv", "b.mkv"] "b.mkv" (by decide) (by decide)
  · rw [(c9_watcher_delta.2.1 ⟨"/w", ["a.mkv", "b.mkv"]⟩ ["a.mkv", "b.mkv", "c.mkv"]
      (by decide)).1]
    decide
  · rw [(c9_watcher_delta.2.1 ⟨"/w", ["a.mkv", "b.mkv", "c.mkv"]⟩ ["a.mkv", "c.mkv"]
      (by decide)).1]
    decide
  · rw [(c9_watcher_delta.2.1 ⟨"/w", ["a.mkv", "b.mkv", "c.mkv"]⟩ ["a.mkv", "c.mkv"]
      (by decide)).2]
    decide
  · exact (c9_watcher_delta.2.2 ⟨"/w", ["a.mkv"]⟩ ["a.mkv"] "a.mkv" (by decide) (by decide)
      (by decide) (by decide) (by decide) (by decide) (by decide)).1
